import Mathlib

set_option maxRecDepth 40000

/-!
Shallow embedding of the orchestration logic of `src/app.py` (HPE Reviewer):
the query-extraction step, the evidence-block construction, the analysis run
(`analyze_manuscript`), and the follow-up chat turn, together with models of
the Python string primitives (`str.find`, slicing, `str.upper`, `in`) and of
the library calls the code makes (`ast.literal_eval` restricted to the flat
list literals relevant here; the two search backends as outcome oracles).
Python dict/list reference semantics for the chat history are modelled with
an explicit store of message cells addressed by index, so that the
`list.copy()` in the chat handler is a spine copy sharing cells.
-/

namespace HPE

/-- A Python literal atom as returned by `ast.literal_eval` for the flat list
literals modelled here: a string or an integer. -/
inductive PyAtom where
  | str : String → PyAtom
  | int : Int → PyAtom
deriving DecidableEq

instance : Inhabited PyAtom := ⟨PyAtom.str ""⟩

/-- Python `str(x)` for the atoms above (used when an atom is interpolated
into an f-string). -/
def pyStr : PyAtom → String
  | .str s => s
  | .int n => toString n

/-- Index of the first occurrence of `c` in `l`, if any
(the core of Python `str.find`). -/
def pyFindAux (c : Char) : List Char → Option Nat
  | [] => none
  | x :: xs => if x = c then some 0 else (pyFindAux c xs).map (· + 1)

/-- Python `str.find`: index of the first occurrence, `-1` when absent. -/
def pyFind (l : List Char) (c : Char) : Int :=
  match pyFindAux c l with
  | some i => (i : Int)
  | none => -1

/-- Resolve a Python slice bound against a length: negative bounds count from
the end (clamped below at 0), non-negative bounds are clamped above at the
length. -/
def pyResolve (len : Nat) (i : Int) : Nat :=
  if i < 0 then (i + len).toNat else min i.toNat len

/-- Python slice `l[a:b]` (step 1). -/
def pySlice (l : List Char) (a b : Int) : List Char :=
  (l.take (pyResolve l.length b)).drop (pyResolve l.length a)

/-- Python whitespace accepted around tokens of a list literal. -/
def isPyWs (c : Char) : Bool :=
  c == ' ' || c == '\t' || c == '\n' || c == '\r'

/-- Drop leading whitespace. -/
def skipWs : List Char → List Char
  | [] => []
  | c :: cs => if isPyWs c then skipWs cs else c :: cs

/-- Scan the body of a quoted string literal up to the closing quote
(escape sequences are outside the modelled fragment and make the scan fail). -/
def scanStr (quote : Char) : List Char → Option (List Char × List Char)
  | [] => none
  | c :: cs =>
    if c == quote then some ([], cs)
    else if c == '\\' then none
    else (scanStr quote cs).map (fun p => (c :: p.1, p.2))

/-- Value of a non-empty digit string. -/
def digitsToNat (ds : List Char) : Nat :=
  ds.foldl (fun a c => a * 10 + (c.toNat - 48)) 0

/-- Parse one atom (string or integer literal) at the head of the input. -/
def parseAtomC : List Char → Option (PyAtom × List Char)
  | [] => none
  | c :: cs =>
    if c == '\x27' || c == '\x22' then
      (scanStr c cs).map (fun p => (PyAtom.str ⟨p.1⟩, p.2))
    else if c == '-' then
      match cs.span (fun d => d.isDigit) with
      | ([], _) => none
      | (ds, r) => some (PyAtom.int (-(digitsToNat ds : Int)), r)
    else if c.isDigit then
      match (c :: cs).span (fun d => d.isDigit) with
      | (ds, r) => some (PyAtom.int (digitsToNat ds : Int), r)
    else none

/-- Parse the items of a list literal after the opening bracket; `fuel` bounds
the number of items. Accepts an optional trailing comma, and requires only
whitespace after the closing bracket, as `ast.literal_eval` does. -/
def parseItems : Nat → List Char → List PyAtom → Option (List PyAtom)
  | 0, _, _ => none
  | fuel + 1, l, acc =>
    match skipWs l with
    | ']' :: r => if (skipWs r).isEmpty then some acc.reverse else none
    | l1 =>
      match parseAtomC l1 with
      | none => none
      | some (a, r) =>
        match skipWs r with
        | ',' :: r2 => parseItems fuel r2 (a :: acc)
        | ']' :: r2 => if (skipWs r2).isEmpty then some (a :: acc).reverse else none
        | _ => none

/-- Model of `ast.literal_eval` restricted to the fragment this code feeds it:
a flat bracketed list of string literals (no escapes) and integer literals,
with arbitrary whitespace. Everything else fails, as does any input that is
not a single list literal. -/
def parseListAtoms (l : List Char) : Option (List PyAtom) :=
  match skipWs l with
  | '[' :: rest => parseItems (rest.length + 1) rest []
  | _ => none

/-- The hardcoded fallback query list of `analyze_manuscript`. -/
def defaultQueries : List PyAtom :=
  [PyAtom.str "Medical education research trends"]

/-- Query extraction from the scan output (`app.py` lines 118-124):
slice from the first opening bracket to one past the first closing bracket,
try to parse as a Python literal, and fall back to `defaultQueries` when the
parse raises. -/
def extractQueriesL (l : List Char) : List PyAtom :=
  (parseListAtoms (pySlice l (pyFind l '[') (pyFind l ']' + 1))).getD defaultQueries

/-- String-level wrapper for `extractQueriesL`. -/
def extractQueriesS (s : String) : List PyAtom :=
  extractQueriesL s.toList

/-- The query list after the try/except block: when reading the scan
response's text raises (modelled as `none`), the blanket handler also yields
the fallback. -/
def queriesOf : Option String → List PyAtom
  | none => defaultQueries
  | some raw => extractQueriesS raw

/-- Outcome of one PubMed lookup (`search_pubmed`): an exception anywhere in
the request/JSON path, an empty id list, or a list of
(title, source, pubdate) summaries. -/
inductive PubmedOutcome where
  | err : String → PubmedOutcome
  | noIds : PubmedOutcome
  | items : List (String × String × String) → PubmedOutcome
deriving DecidableEq

/-- `search_pubmed` (`app.py` lines 36-63): renders the outcome as text and
maps every internal exception to an error line instead of raising. -/
def searchPubmed : PubmedOutcome → String
  | .err e => "PubMed Error: " ++ e
  | .noIds => "No PubMed articles found."
  | .items xs =>
    String.intercalate "\n"
      (xs.map fun x => "- **" ++ x.1 ++ "** (" ++ x.2.1 ++ ", " ++ x.2.2 ++ ")")

/-- Outcome of one DuckDuckGo lookup (`search_web`): an exception, or a list
of (title, body, href) results (the empty list also covers a falsy return). -/
inductive WebOutcome where
  | err : WebOutcome
  | results : List (String × String × String) → WebOutcome
deriving DecidableEq

/-- `search_web` (`app.py` lines 65-73): renders the outcome as text and maps
every internal exception to the unavailability sentinel instead of raising. -/
def searchWeb : WebOutcome → String
  | .err => "Web search unavailable."
  | .results [] => "No web results found."
  | .results rs =>
    String.intercalate "\n"
      (rs.map fun r => "- " ++ r.1 ++ ": " ++ r.2.1 ++ " (Source: " ++ r.2.2 ++ ")")

/-- The per-query chunk appended to the evidence block
(`app.py` line 133). -/
def evidenceChunk (pm wb : String) (q : PyAtom) : String :=
  "### Checking Claim/Ref: \x27" ++ pyStr q ++ "\x27\n**PubMed found:**\n" ++ pm ++
    "\n**Web found:**\n" ++ wb ++ "\n\n"

/-- The evidence block (`app.py` lines 129-133): starting from the empty
string, one chunk is appended per query, in query order. The backends are
modelled as outcome oracles indexed by query and, for PubMed, `retmax`. -/
def evidenceBlock (pOut : String → Nat → PubmedOutcome) (wOut : String → WebOutcome)
    (qs : List PyAtom) : String :=
  qs.foldl
    (fun acc q =>
      acc ++ evidenceChunk (searchPubmed (pOut (pyStr q) 3)) (searchWeb (wOut (pyStr q))) q)
    ""

/-- The per-query heading line the evidence block opens each chunk with. -/
def headingFor (q : PyAtom) : String :=
  "### Checking Claim/Ref: \x27" ++ pyStr q ++ "\x27"

/-- Everything after the heading in one evidence chunk. -/
def chunkBody (pOut : String → Nat → PubmedOutcome) (wOut : String → WebOutcome)
    (q : PyAtom) : String :=
  "\n**PubMed found:**\n" ++ searchPubmed (pOut (pyStr q) 3) ++
    "\n**Web found:**\n" ++ searchWeb (wOut (pyStr q)) ++ "\n\n"

/-- Python `text[:100000]`: the length-bounded prefix placed in the scan
prompt. -/
def pyTruncate (s : String) : String :=
  ⟨s.toList.take 100000⟩

/-- Text of the scan prompt before the interpolated manuscript text. -/
def scanPre : String :=
  "\n    Analyze this manuscript (Text limited to 100k chars):\n    <manuscript>\n    "

/-- Text of the scan prompt after the interpolated manuscript text. -/
def scanPost : String :=
  "\n    </manuscript>\n\n    Task 1: Evaluate the LOGIC and STRUCTURE. \n    - Does the Introduction end with a clear gap?\n    - Do the Methods directly answer the Research Question?\n    - Are the Results presented without interpretation?\n    - Does the Discussion link back to the gap?\n\n    Task 2: Identify 3 specific references or claims that look suspicious or outdated.\n    \n    Output Format: ONLY a Python list of strings for Task 2, e.g., [\x22Effectiveness of PBL 2005\x22, \x22Smith et al 2019 data\x22]\n    "

/-- The scan prompt (`app.py` lines 93-108): the manuscript text is embedded
through the `text[:100000]` slice. -/
def promptScan (text : String) : String :=
  scanPre ++ pyTruncate text ++ scanPost

/-- Final-prompt text before the interpolated evidence block. -/
def fpA : String :=
  "\n    You are the Editor-in-Chief. Write a robust Peer Review Report.\n    \n    INPUT DATA:\n    1. Manuscript Text (already provided in context).\n    2. Verification Evidence: \n    "

/-- Final-prompt text between the evidence block and the first interpolation
of the similar-papers result. -/
def fpB : String :=
  "\n    3. Similar/Recent Papers found in PubMed:\n    "

/-- Final-prompt text between the two interpolations of the similar-papers
result. -/
def fpC : String :=
  "\n\n    REPORT SECTIONS:\n    1. **Executive Summary & Decision**: (Accept, Minor, Major, Reject).\n    2. **Structure & Logic Check**: \n       - Critique the \x22Golden Thread\x22 (Coherence from Intro to Conclusion).\n       - Comment on the \x22Gap\x22 identification.\n    3. **Methodological Rigor**: \n       - Check against CONSORT (if quantitative) or SRQR (if qualitative).\n    4. **Reference Quality & Validity**:\n       - Discuss if citations are current (last 5 years).\n       - Note any potential \x22hallucinated\x22 or incorrect citations based on the evidence check.\n    5. **Similar Work**: \n       - Mention the similar papers found ("

/-- Final-prompt text after the second interpolation of the similar-papers
result. -/
def fpD : String :=
  ") and how this manuscript compares.\n    6. **Specific Recommendations**: Bullet points.\n\n    Tone: Strict, Academic, Helpful.\n    "

/-- The synthesis prompt (`app.py` lines 143-168): embeds the evidence block
once and the similar-papers result twice. -/
def mkFinalPrompt (eb sim : String) : String :=
  fpA ++ eb ++ fpB ++ sim ++ fpC ++ sim ++ fpD

/-- One role-tagged message dict. -/
structure PyMsg where
  role : String
  content : String
deriving DecidableEq

instance : Inhabited PyMsg := ⟨⟨"", ""⟩⟩

/-- The uncaught Python exceptions the analysis run can raise. -/
inductive PyErr where
  | indexError : PyErr
  | nameError : PyErr
deriving DecidableEq

/-- One invocation of a search backend, with its query string (and, for
PubMed, the `retmax` bound). -/
inductive SearchCall where
  | pubmed : String → Nat → SearchCall
  | web : String → SearchCall
deriving DecidableEq

instance {ε α : Type} [DecidableEq ε] [DecidableEq α] : DecidableEq (Except ε α)
  | .ok a, .ok b =>
    if h : a = b then .isTrue (by rw [h]) else .isFalse (by simp [h])
  | .ok _, .error _ => .isFalse (by simp)
  | .error _, .ok _ => .isFalse (by simp)
  | .error e, .error f =>
    if h : e = f then .isTrue (by rw [h]) else .isFalse (by simp [h])

/-- Result of a (possibly aborted) analysis run: the report or the uncaught
exception, the session chat history as left behind, and the backend calls
issued, in order. -/
structure RunResult where
  outcome : Except PyErr String
  history : List PyMsg
  calls : List SearchCall
deriving DecidableEq

/-- The backend calls issued by the evidence loop: PubMed (retmax 3) then web
for each query, in query order. -/
def phase2Calls (qs : List PyAtom) : List SearchCall :=
  qs.foldl (fun a q => a ++ [SearchCall.pubmed (pyStr q) 3, SearchCall.web (pyStr q)]) []

/-- `analyze_manuscript` (`app.py` lines 81-186). Inputs: the manuscript
text; the scan response's readable text (`none` when `msg1.content[0].text`
raises, which the extraction try/except swallows); the two backend outcome
oracles; the synthesis response text; the session history the run starts
from. Faithful to the source's order: the evidence searches run before any
history append; an empty query list raises IndexError at `queries[0]` before
any append; an unreadable scan response raises NameError at the `raw_text`
reference after the scan prompt has been appended. -/
def runAnalyze (text : String) (sc : Option String)
    (pOut : String → Nat → PubmedOutcome) (wOut : String → WebOutcome)
    (rep : String) (hist0 : List PyMsg) : RunResult :=
  let ps := promptScan text
  let queries := queriesOf sc
  let eb := evidenceBlock pOut wOut queries
  let p2 := phase2Calls queries
  match queries with
  | [] => { outcome := .error .indexError, history := hist0, calls := p2 }
  | q0 :: _ =>
    let simQuery := pyStr q0 ++ " review"
    let sim := searchPubmed (pOut simQuery 4)
    let calls := p2 ++ [SearchCall.pubmed simQuery 4]
    let fp := mkFinalPrompt eb sim
    let h1 := hist0 ++ [⟨"user", ps⟩]
    match sc with
    | none => { outcome := .error .nameError, history := h1, calls := calls }
    | some raw =>
      { outcome := .ok rep
        history := h1 ++ [⟨"assistant", raw⟩, ⟨"user", fp⟩, ⟨"assistant", rep⟩]
        calls := calls }

/-- Does `needle` occur as a contiguous sublist of the second argument? -/
def pyInAux (needle : List Char) : List Char → Bool
  | [] => needle.isEmpty
  | c :: t => needle.isPrefixOf (c :: t) || pyInAux needle t

/-- Substring test: the model of Python `needle in hay`. -/
def pyIn (needle hay : String) : Bool :=
  pyInAux needle.toList hay.toList

/-- ASCII uppercase of one character. -/
def pyUpperChar (c : Char) : Char :=
  if c.isLower then Char.ofNat (c.toNat - 32) else c

/-- Model of Python `str.upper` on the ASCII text involved here. -/
def pyUpper (s : String) : String :=
  ⟨s.toList.map pyUpperChar⟩

/-- The tool-need gate (`app.py` line 245): `"YES" in check.upper()`. -/
def chatGate (check : String) : Bool :=
  pyIn "YES" (pyUpper check)

/-- Leading text of the injected evidence string. -/
def ctxPre : String :=
  "\n[SYSTEM: I performed a live search based on the user question.]\nPubMed Results: "

/-- The `context_add` string of a chat turn (`app.py` lines 244-249): empty
when the gate does not fire, otherwise the search results wrapped in the
fixed template (and hence never empty). -/
def chatContextAdd (prompt check : String)
    (pOut : String → Nat → PubmedOutcome) (wOut : String → WebOutcome) : String :=
  if chatGate check then
    ctxPre ++ searchPubmed (pOut prompt 3) ++ "\nWeb Results: " ++ searchWeb (wOut prompt) ++ "\n"
  else ""

/-- Session chat state with Python reference semantics made explicit: the
history is a list of references into a store of message cells, so that a
`list.copy()` duplicates only the spine while the cells stay shared. -/
structure ChatState where
  store : List PyMsg
  history : List Nat
deriving DecidableEq

/-- Result of one chat turn: the new session state, the message sequence sent
to the completion client, and the backend calls issued. -/
structure TurnResult where
  state : ChatState
  outbound : List PyMsg
  calls : List SearchCall
deriving DecidableEq

/-- One chat turn (`app.py` lines 231-267). The user turn is appended as a
fresh cell; `temp_messages = chat_history.copy()` is a spine copy, so the
conditional `temp_messages[-1]['content'] = final_chat_prompt` is modelled as
a store update at the shared cell; the outbound sequence reads the copied
spine against the updated store; finally the streamed answer is appended as a
fresh cell. -/
def chatTurn (st : ChatState) (prompt check : String)
    (pOut : String → Nat → PubmedOutcome) (wOut : String → WebOutcome)
    (resp : String) : TurnResult :=
  let newRef := st.store.length
  let store1 := st.store ++ [⟨"user", prompt⟩]
  let hist1 := st.history ++ [newRef]
  let ctx := chatContextAdd prompt check pOut wOut
  let calls := if chatGate check then
      [SearchCall.pubmed prompt 3, SearchCall.web prompt] else []
  let finalChatPrompt := prompt ++ ctx
  let temp := hist1
  let store2 := if ctx ≠ "" then store1.set newRef ⟨"user", finalChatPrompt⟩ else store1
  let outbound := temp.map (fun i => store2.getD i default)
  let store3 := store2 ++ [⟨"assistant", resp⟩]
  let hist2 := hist1 ++ [store2.length]
  { state := { store := store3, history := hist2 }, outbound := outbound, calls := calls }

/-- Concatenation of a list of strings (spec-side view of the evidence
block's accumulation). -/
def strConcat : List String → String
  | [] => ""
  | s :: rest => s ++ strConcat rest

/-- The persisted transcript of a chat session, read turn by turn through the
store. -/
def persistedMsgs (st : ChatState) : List PyMsg :=
  st.history.map (fun i => st.store.getD i default)

/- ## Theorems -/

/-- `pyInAux` decides contiguous-sublist membership. -/
theorem pyInAux_iff (needle : List Char) :
    ∀ l, pyInAux needle l = true ↔ needle <:+: l
  | [] => by simp [pyInAux, List.isEmpty_iff]
  | c :: t => by
    simp [pyInAux, Bool.or_eq_true, List.isPrefixOf_iff_prefix,
      pyInAux_iff needle t, List.infix_cons_iff]

/-- The chat gate fires exactly when `YES` occurs in the uppercased check. -/
theorem chatGate_iff (check : String) :
    chatGate check = true ↔ "YES".toList <:+: (pyUpper check).toList := by
  unfold chatGate pyIn
  exact pyInAux_iff _ _

/-- C7: in a chat turn the search backends are invoked iff the tool-need
response contains the token `YES` as a case-insensitive substring; when it
does, PubMed and the web are each invoked exactly once with the raw user
message as the query, and otherwise no backend is invoked. -/
theorem c7_tool_gate (st : ChatState) (prompt check : String)
    (pOut : String → Nat → PubmedOutcome) (wOut : String → WebOutcome) (resp : String) :
    ((chatTurn st prompt check pOut wOut resp).calls ≠ [] ↔
      "YES".toList <:+: (pyUpper check).toList)
    ∧ ("YES".toList <:+: (pyUpper check).toList →
        (chatTurn st prompt check pOut wOut resp).calls =
          [SearchCall.pubmed prompt 3, SearchCall.web prompt])
    ∧ (¬ "YES".toList <:+: (pyUpper check).toList →
        (chatTurn st prompt check pOut wOut resp).calls = []) := by
  have hcalls : (chatTurn st prompt check pOut wOut resp).calls =
      if chatGate check then [SearchCall.pubmed prompt 3, SearchCall.web prompt] else [] := by
    simp [chatTurn]
  by_cases h : chatGate check = true
  · rw [hcalls, if_pos h]
    have hy := (chatGate_iff check).mp h
    exact ⟨by simp only [ne_eq, List.cons_ne_nil, not_false_eq_true, true_iff]; exact hy,
      fun _ => rfl, fun hn => absurd hy hn⟩
  · rw [hcalls, if_neg h]
    have hy : ¬ "YES".toList <:+: (pyUpper check).toList := fun hc =>
      h ((chatGate_iff check).mpr hc)
    exact ⟨by simp only [ne_eq, not_true_eq_false, false_iff]; exact hy,
      fun hc => absurd hc hy, fun _ => rfl⟩

/-- C7 witness: with a check response containing `Yes`, both backends are
called once with the raw user message. -/
theorem c7_tool_gate_witness :
    (chatTurn ⟨[], []⟩ "find references for X" "Yes, search please"
        (fun _ _ => PubmedOutcome.noIds) (fun _ => WebOutcome.err) "r").calls =
      [SearchCall.pubmed "find references for X" 3, SearchCall.web "find references for X"] :=
  (c7_tool_gate ⟨[], []⟩ "find references for X" "Yes, search please"
      (fun _ _ => PubmedOutcome.noIds) (fun _ => WebOutcome.err) "r").2.1
    ⟨[], ", SEARCH PLEASE".toList, by decide⟩

/-- Characterization of a run whose scan response text cannot be read. -/
theorem runAnalyze_none (text : String)
    (pOut : String → Nat → PubmedOutcome) (wOut : String → WebOutcome)
    (rep : String) (hist0 : List PyMsg) :
    (runAnalyze text none pOut wOut rep hist0).outcome = .error .nameError
    ∧ (runAnalyze text none pOut wOut rep hist0).history =
        hist0 ++ [⟨"user", promptScan text⟩] := by
  constructor <;> simp [runAnalyze, queriesOf, defaultQueries]

/-- C9: when reading the scan response's text raises inside the extraction
try-block, the fallback query list is substituted and the evidence phases
still run, but the later transcript append references the unassigned
`raw_text`, so the run raises (NameError) after appending only the scan
prompt, instead of completing with the fallback. -/
theorem c9_unreadable_scan_raises (text : String)
    (pOut : String → Nat → PubmedOutcome) (wOut : String → WebOutcome)
    (rep : String) (hist0 : List PyMsg) :
    (runAnalyze text none pOut wOut rep hist0).outcome = .error .nameError
    ∧ queriesOf none = defaultQueries
    ∧ (runAnalyze text none pOut wOut rep hist0).history =
        hist0 ++ [⟨"user", promptScan text⟩] :=
  ⟨(runAnalyze_none text pOut wOut rep hist0).1, rfl,
    (runAnalyze_none text pOut wOut rep hist0).2⟩

/-- C2 fails on the code: a scan output of `[]` parses successfully to the
empty query list, so the non-emptiness invariant is violated, the evidence
loop runs zero times, and the run then raises IndexError at `queries[0]`
before touching the transcript. -/
theorem c2_empty_literal_violates_invariant :
    extractQueriesS "[]" = []
    ∧ (runAnalyze "manuscript" (some "[]") (fun _ _ => PubmedOutcome.noIds)
        (fun _ => WebOutcome.err) "report" []) =
      { outcome := .error .indexError, history := [], calls := [] } := by
  decide

/-- C3 fails on the code: `chat_history.copy()` is a spine copy sharing the
message dicts, so writing the evidence-augmented content into the copied
list's last element mutates the persisted transcript's stored user turn,
which afterwards is the original message plus the injected evidence. -/
theorem c3_injected_evidence_pollutes_transcript :
    ((chatTurn ⟨[⟨"user", "u1"⟩, ⟨"assistant", "a1"⟩], [0, 1]⟩ "find references for X" "YES"
        (fun _ _ => PubmedOutcome.noIds) (fun _ => WebOutcome.err) "answer").state.store.getD 2
        default) =
      ⟨"user", "find references for X" ++ chatContextAdd "find references for X" "YES"
        (fun _ _ => PubmedOutcome.noIds) (fun _ => WebOutcome.err)⟩
    ∧ ((chatTurn ⟨[⟨"user", "u1"⟩, ⟨"assistant", "a1"⟩], [0, 1]⟩ "find references for X" "YES"
        (fun _ _ => PubmedOutcome.noIds) (fun _ => WebOutcome.err) "answer").state.store.getD 2
        default).content ≠ "find references for X"
    ∧ (chatTurn ⟨[⟨"user", "u1"⟩, ⟨"assistant", "a1"⟩], [0, 1]⟩ "find references for X" "YES"
        (fun _ _ => PubmedOutcome.noIds) (fun _ => WebOutcome.err) "answer").state.history =
      [0, 1, 2, 3] := by
  decide

/-- C1 fails as stated: the input `[1, 2]` contains no list-of-strings
literal, yet extraction returns the parsed integers rather than the fixed
default query list. -/
theorem c1_counterexample :
    extractQueriesS "[1, 2]" ≠ defaultQueries
    ∧ extractQueriesS "[1, 2]" = [PyAtom.int 1, PyAtom.int 2] := by
  decide

/-- C6 fails as stated: on a session with six persisted turns the outbound
sequence is the whole history plus the current turn (seven messages), its
first element is the oldest persisted turn rather than a system instruction,
and no element carries the system role. -/
theorem c6_counterexample :
    (chatTurn ⟨[⟨"user", "t1"⟩, ⟨"assistant", "t2"⟩, ⟨"user", "t3"⟩, ⟨"assistant", "t4"⟩,
        ⟨"user", "t5"⟩, ⟨"assistant", "t6"⟩], [0, 1, 2, 3, 4, 5]⟩ "current question" "NO"
        (fun _ _ => PubmedOutcome.noIds) (fun _ => WebOutcome.err) "r").outbound.length = 7
    ∧ (chatTurn ⟨[⟨"user", "t1"⟩, ⟨"assistant", "t2"⟩, ⟨"user", "t3"⟩, ⟨"assistant", "t4"⟩,
        ⟨"user", "t5"⟩, ⟨"assistant", "t6"⟩], [0, 1, 2, 3, 4, 5]⟩ "current question" "NO"
        (fun _ _ => PubmedOutcome.noIds) (fun _ => WebOutcome.err) "r").outbound.getD 0 default =
      ⟨"user", "t1"⟩
    ∧ ∀ m ∈ (chatTurn ⟨[⟨"user", "t1"⟩, ⟨"assistant", "t2"⟩, ⟨"user", "t3"⟩, ⟨"assistant", "t4"⟩,
        ⟨"user", "t5"⟩, ⟨"assistant", "t6"⟩], [0, 1, 2, 3, 4, 5]⟩ "current question" "NO"
        (fun _ _ => PubmedOutcome.noIds) (fun _ => WebOutcome.err) "r").outbound,
      m.role ≠ "system" := by
  decide

/-- Folding string appends from an initial string concatenates the mapped
pieces in order. -/
theorem foldl_strConcat (f : PyAtom → String) :
    ∀ (qs : List PyAtom) (init : String),
      qs.foldl (fun a q => a ++ f q) init = init ++ strConcat (qs.map f)
  | [], init => by simp [strConcat]
  | q :: t, init => by
    simp only [List.foldl_cons, List.map_cons, strConcat]
    rw [foldl_strConcat f t (init ++ f q), String.append_assoc]

/-- Zipping two maps over the same list is a single map. -/
theorem zipWith_map_same {α β : Type} (f : β → β → β) (g h : α → β) :
    ∀ l : List α, List.zipWith f (l.map g) (l.map h) = l.map fun x => f (g x) (h x)
  | [] => rfl
  | x :: t => by simp [List.zipWith_cons_cons, zipWith_map_same f g h t]

/-- Each evidence chunk is its query's heading followed by that query's
body. -/
theorem evidenceChunk_split (pOut : String → Nat → PubmedOutcome)
    (wOut : String → WebOutcome) (q : PyAtom) :
    evidenceChunk (searchPubmed (pOut (pyStr q) 3)) (searchWeb (wOut (pyStr q))) q =
      headingFor q ++ chunkBody pOut wOut q := by
  apply String.ext
  have hsplit : ("\x27\n**PubMed found:**\n" : String).data =
      '\x27' :: ("\n**PubMed found:**\n" : String).data := by decide
  have hq : ("\x27" : String).data = ['\x27'] := by decide
  simp [evidenceChunk, headingFor, chunkBody, hsplit, hq]

/-- The evidence block is the in-order concatenation of the per-query
chunks. -/
theorem evidenceBlock_eq_strConcat (pOut : String → Nat → PubmedOutcome)
    (wOut : String → WebOutcome) (qs : List PyAtom) :
    evidenceBlock pOut wOut qs =
      strConcat (qs.map fun q =>
        evidenceChunk (searchPubmed (pOut (pyStr q) 3)) (searchWeb (wOut (pyStr q))) q) := by
  simpa using foldl_strConcat
    (fun q => evidenceChunk (searchPubmed (pOut (pyStr q) 3)) (searchWeb (wOut (pyStr q))) q) qs ""

/-- C5: for a non-empty query list the evidence block is non-empty and is the
in-order concatenation of one heading per query, each followed by that
query's backend results; the backend renderers substitute their failure
sentinels in place of results whenever the backend fails, never raising. -/
theorem c5_evidence_block (pOut : String → Nat → PubmedOutcome)
    (wOut : String → WebOutcome) (qs : List PyAtom) (h : qs ≠ []) :
    evidenceBlock pOut wOut qs ≠ ""
    ∧ evidenceBlock pOut wOut qs =
        strConcat (List.zipWith (fun hd bd => hd ++ bd)
          (qs.map headingFor) (qs.map (chunkBody pOut wOut)))
    ∧ (∀ q ∈ qs, wOut (pyStr q) = WebOutcome.err →
        searchWeb (wOut (pyStr q)) = "Web search unavailable.")
    ∧ (∀ q ∈ qs, ∀ e, pOut (pyStr q) 3 = PubmedOutcome.err e →
        searchPubmed (pOut (pyStr q) 3) = "PubMed Error: " ++ e) := by
  have hblk := evidenceBlock_eq_strConcat pOut wOut qs
  refine ⟨?_, ?_, ?_, ?_⟩
  · obtain ⟨q, qs', rfl⟩ := List.exists_cons_of_ne_nil h
    have hpos : 0 < (evidenceBlock pOut wOut (q :: qs')).length := by
      rw [hblk]
      simp only [List.map_cons, strConcat, evidenceChunk, String.length_append]
      have hc : 0 < ("### Checking Claim/Ref: \x27" : String).length := by decide
      omega
    intro he
    rw [he] at hpos
    exact absurd hpos (by decide)
  · rw [hblk, zipWith_map_same]
    exact congrArg strConcat (List.map_congr_left fun q _ => evidenceChunk_split pOut wOut q)
  · intro q _ hw
    rw [hw]
    rfl
  · intro q _ e hp
    rw [hp]
    rfl

/-- C5 witness: one query with both backends failing still yields a non-empty
evidence block. -/
theorem c5_evidence_block_witness :
    evidenceBlock (fun _ _ => PubmedOutcome.err "boom") (fun _ => WebOutcome.err)
      [PyAtom.str "claim A"] ≠ "" :=
  (c5_evidence_block (fun _ _ => PubmedOutcome.err "boom") (fun _ => WebOutcome.err)
    [PyAtom.str "claim A"] (by decide)).1

/-- C8: the scan prompt embeds exactly `text[:100000]`; text at or under the
bound is embedded unchanged, and longer text is cut to exactly the first
100000 characters, with no error path. -/
theorem c8_truncation (text : String) :
    promptScan text = scanPre ++ pyTruncate text ++ scanPost
    ∧ (pyTruncate text).toList = text.toList.take 100000
    ∧ (text.toList.length ≤ 100000 → pyTruncate text = text)
    ∧ (100000 ≤ text.toList.length → (pyTruncate text).toList.length = 100000) := by
  refine ⟨rfl, rfl, ?_, ?_⟩
  · intro h
    unfold pyTruncate
    rw [List.take_of_length_le h]
    cases text
    rfl
  · intro h
    show (text.toList.take 100000).length = 100000
    rw [List.length_take]
    omega

/-- C8 witness: a short text is embedded in the scan prompt unchanged. -/
theorem c8_truncation_witness :
    promptScan "abc" = scanPre ++ "abc" ++ scanPost := by
  have h := c8_truncation "abc"
  rw [h.1, h.2.2.1 (by decide)]

/-- Characterization of a completed analysis run: readable scan response and
non-empty extracted query list. -/
theorem runAnalyze_ok (text raw : String) (q0 : PyAtom) (qs : List PyAtom)
    (pOut : String → Nat → PubmedOutcome) (wOut : String → WebOutcome)
    (rep : String) (hist0 : List PyMsg) (hq : extractQueriesS raw = q0 :: qs) :
    runAnalyze text (some raw) pOut wOut rep hist0 =
      { outcome := .ok rep
        history := hist0 ++ [⟨"user", promptScan text⟩, ⟨"assistant", raw⟩,
          ⟨"user", mkFinalPrompt (evidenceBlock pOut wOut (q0 :: qs))
            (searchPubmed (pOut (pyStr q0 ++ " review") 4))⟩,
          ⟨"assistant", rep⟩]
        calls := phase2Calls (q0 :: qs) ++ [SearchCall.pubmed (pyStr q0 ++ " review") 4] } := by
  simp [runAnalyze, queriesOf, hq, List.append_assoc]

/-- C4: a completed analysis run started on an empty transcript leaves
exactly the four turns scan-prompt (user), scan-output (assistant),
synthesis-prompt (user), synthesis-output (assistant), whatever the query
list and backend outcomes were; no evidence lookup adds a turn. -/
theorem c4_transcript_four_turns (text : String) (sc : Option String)
    (pOut : String → Nat → PubmedOutcome) (wOut : String → WebOutcome) (rep rep' : String)
    (h : (runAnalyze text sc pOut wOut rep []).outcome = .ok rep') :
    ∃ raw q0 qs, sc = some raw ∧ extractQueriesS raw = q0 :: qs ∧
      (runAnalyze text sc pOut wOut rep []).history =
        [⟨"user", promptScan text⟩, ⟨"assistant", raw⟩,
         ⟨"user", mkFinalPrompt (evidenceBlock pOut wOut (q0 :: qs))
            (searchPubmed (pOut (pyStr q0 ++ " review") 4))⟩,
         ⟨"assistant", rep'⟩] := by
  cases sc with
  | none =>
    have hn := (runAnalyze_none text pOut wOut rep []).1
    rw [hn] at h
    exact absurd h (by simp)
  | some raw =>
    cases hq : extractQueriesS raw with
    | nil =>
      have hout : (runAnalyze text (some raw) pOut wOut rep []).outcome =
          .error .indexError := by
        simp [runAnalyze, queriesOf, hq]
      rw [hout] at h
      exact absurd h (by simp)
    | cons q0 qs =>
      have hrun := runAnalyze_ok text raw q0 qs pOut wOut rep [] hq
      rw [hrun] at h
      simp only at h
      obtain rfl : rep = rep' := Except.ok.inj h
      exact ⟨raw, q0, qs, rfl, hq, by rw [hrun]; simp⟩

/-- C4 witness: the stubbed end-to-end run leaves exactly the four turns. -/
theorem c4_transcript_four_turns_witness :
    ∃ raw q0 qs,
      (some "Some critique. [\x22claim A\x22, \x22claim B\x22]" : Option String) = some raw ∧
      extractQueriesS raw = q0 :: qs ∧
      (runAnalyze "Intro... Methods... Results..."
          (some "Some critique. [\x22claim A\x22, \x22claim B\x22]")
          (fun _ _ => PubmedOutcome.noIds) (fun _ => WebOutcome.err)
          "FINAL REPORT" []).history =
        [⟨"user", promptScan "Intro... Methods... Results..."⟩,
         ⟨"assistant", raw⟩,
         ⟨"user", mkFinalPrompt
            (evidenceBlock (fun _ _ => PubmedOutcome.noIds) (fun _ => WebOutcome.err) (q0 :: qs))
            (searchPubmed (PubmedOutcome.noIds))⟩,
         ⟨"assistant", "FINAL REPORT"⟩] :=
  c4_transcript_four_turns "Intro... Methods... Results..."
    (some "Some critique. [\x22claim A\x22, \x22claim B\x22]")
    (fun _ _ => PubmedOutcome.noIds) (fun _ => WebOutcome.err)
    "FINAL REPORT" "FINAL REPORT" (by decide)

/-- C10: after the evidence loop, exactly one further PubMed search is
issued, with the first extracted query plus a ` review` suffix and a
4-result bound, and the synthesis prompt embeds its textual result (twice)
alongside the evidence block. -/
theorem c10_similar_papers (text raw : String)
    (pOut : String → Nat → PubmedOutcome) (wOut : String → WebOutcome)
    (rep : String) (hist0 : List PyMsg) (q0 : PyAtom) (qs : List PyAtom)
    (hq : extractQueriesS raw = q0 :: qs) :
    (runAnalyze text (some raw) pOut wOut rep hist0).calls =
      phase2Calls (q0 :: qs) ++ [SearchCall.pubmed (pyStr q0 ++ " review") 4]
    ∧ (runAnalyze text (some raw) pOut wOut rep hist0).history =
        hist0 ++ [⟨"user", promptScan text⟩, ⟨"assistant", raw⟩,
          ⟨"user", fpA ++ evidenceBlock pOut wOut (q0 :: qs) ++ fpB ++
            searchPubmed (pOut (pyStr q0 ++ " review") 4) ++ fpC ++
            searchPubmed (pOut (pyStr q0 ++ " review") 4) ++ fpD⟩,
          ⟨"assistant", rep⟩] := by
  rw [runAnalyze_ok text raw q0 qs pOut wOut rep hist0 hq]
  exact ⟨rfl, rfl⟩

/-- C10 witness: concrete run issuing the per-query searches and then the
single similar-papers search. -/
theorem c10_similar_papers_witness :
    (runAnalyze "m" (some "[\x22q1\x22]") (fun _ _ => PubmedOutcome.noIds)
        (fun _ => WebOutcome.err) "rep" []).calls =
      [SearchCall.pubmed "q1" 3, SearchCall.web "q1", SearchCall.pubmed "q1 review" 4] :=
  ((c10_similar_papers "m" "[\x22q1\x22]" (fun _ _ => PubmedOutcome.noIds)
      (fun _ => WebOutcome.err) "rep" [] (PyAtom.str "q1") [] (by decide)).1).trans (by decide)

/-- C6 as the code implements it: the outbound chat sequence is the entire
persisted transcript in order — no system instruction, no seed pair, no
trailing window — followed by the current user turn, whose content is the
user message with the evidence string appended when the gate fired. -/
theorem c6_outbound_full_history (st : ChatState) (prompt check : String)
    (pOut : String → Nat → PubmedOutcome) (wOut : String → WebOutcome) (resp : String)
    (hwf : ∀ i ∈ st.history, i < st.store.length) :
    (chatTurn st prompt check pOut wOut resp).outbound =
      persistedMsgs st ++ [⟨"user", prompt ++ chatContextAdd prompt check pOut wOut⟩] := by
  unfold persistedMsgs
  by_cases hc : chatContextAdd prompt check pOut wOut = ""
  all_goals simp only [chatTurn, hc, ne_eq, not_true_eq_false, not_false_eq_true, if_true,
    if_false, ite_true, ite_false, List.map_append, List.map_cons, List.map_nil,
    String.append_empty]
  · congr 1
    · refine List.map_congr_left fun i hi => ?_
      rw [List.getD_append _ _ _ _ (hwf i hi)]
    · rw [List.getD_eq_getElem?_getD, List.getElem?_concat_length]
      rfl
  · congr 1
    · refine List.map_congr_left fun i hi => ?_
      rw [List.getD_eq_getElem?_getD,
        List.getElem?_set_ne (Ne.symm (Nat.ne_of_lt (hwf i hi))),
        List.getElem?_append_left (hwf i hi), ← List.getD_eq_getElem?_getD]
    · rw [List.getD_eq_getElem?_getD,
        List.getElem?_set_self (by simp), Option.getD_some]

/-- C6 amended witness: a two-turn session with the gate off sends both
persisted turns followed by the unmodified current user turn. -/
theorem c6_outbound_full_history_witness :
    (chatTurn ⟨[⟨"user", "u1"⟩, ⟨"assistant", "a1"⟩], [0, 1]⟩ "next question" "NO"
        (fun _ _ => PubmedOutcome.noIds) (fun _ => WebOutcome.err) "r").outbound =
      persistedMsgs ⟨[⟨"user", "u1"⟩, ⟨"assistant", "a1"⟩], [0, 1]⟩ ++
        [⟨"user", "next question" ++ chatContextAdd "next question" "NO"
          (fun _ _ => PubmedOutcome.noIds) (fun _ => WebOutcome.err)⟩] :=
  c6_outbound_full_history ⟨[⟨"user", "u1"⟩, ⟨"assistant", "a1"⟩], [0, 1]⟩
    "next question" "NO" (fun _ _ => PubmedOutcome.noIds) (fun _ => WebOutcome.err) "r"
    (by decide)

/-- A character absent from a list is never found. -/
theorem pyFindAux_eq_none (c : Char) : ∀ l : List Char, c ∉ l → pyFindAux c l = none
  | [], _ => rfl
  | x :: xs, h => by
    have hx : ¬ x = c := fun he => h (by simp [he])
    have hxs : c ∉ xs := fun hm => h (by simp [hm])
    simp [pyFindAux, hx, pyFindAux_eq_none c xs hxs]

/-- Searching past a prefix that lacks the character shifts the found index
by the prefix length. -/
theorem pyFindAux_append (c : Char) :
    ∀ (pre rest : List Char), c ∉ pre →
      pyFindAux c (pre ++ rest) = (pyFindAux c rest).map (· + pre.length)
  | [], rest, _ => by cases hfr : pyFindAux c rest <;> simp [hfr]
  | x :: xs, rest, h => by
    have hx : ¬ x = c := fun he => h (by simp [he])
    have hxs : c ∉ xs := fun hm => h (by simp [hm])
    have ih := pyFindAux_append c xs rest hxs
    show (if x = c then some 0 else (pyFindAux c (xs ++ rest)).map (· + 1)) =
      (pyFindAux c rest).map (· + (xs.length + 1))
    rw [if_neg hx, ih]
    cases pyFindAux c rest <;> simp [Nat.add_assoc]

/-- Taking a prefix length plus `n` elements of an append takes `n` elements
past the prefix. -/
theorem take_append_add {α : Type} (n : Nat) :
    ∀ (l₁ l₂ : List α), (l₁ ++ l₂).take (l₁.length + n) = l₁ ++ l₂.take n
  | [], l₂ => by simp
  | x :: xs, l₂ => by
    simp only [List.cons_append, List.length_cons, Nat.succ_add, List.take_succ_cons,
      take_append_add n xs l₂]

/-- The bracket slice of the decomposed scan output is exactly the bracketed
segment. -/
theorem pySlice_decomp (pre mid post : List Char) :
    pySlice (pre ++ '[' :: (mid ++ ']' :: post)) (pre.length : Int)
      (((pre.length + 1 + mid.length : Nat) : Int) + 1) = '[' :: (mid ++ [']']) := by
  have hlen : (pre ++ '[' :: (mid ++ ']' :: post)).length =
      pre.length + mid.length + post.length + 2 := by
    simp [List.length_append]
    omega
  have hb : ((pre.length + 1 + mid.length : Nat) : Int) + 1 =
      ((pre.length + (mid.length + 2) : Nat) : Int) := by
    push_cast
    ring
  unfold pySlice pyResolve
  rw [hb]
  rw [if_neg (by omega), if_neg (by omega), Int.toNat_ofNat, Int.toNat_ofNat]
  rw [Nat.min_eq_left (by rw [hlen]; omega), Nat.min_eq_left (by rw [hlen]; omega)]
  rw [take_append_add]
  rw [List.drop_left]
  show ('[' :: (mid ++ ']' :: post)).take (Nat.succ (mid.length + 1)) = _
  rw [List.take_succ_cons, take_append_add 1 mid (']' :: post)]
  rfl

/-- C1 as the code implements it, amended: the slice runs from the first `[`
to the first `]` (not a matching or last one), and extraction returns
whatever list literal that slice parses to — non-string elements included —
falling back to the default query list only when the parse fails; it never
raises. For a scan output decomposed around its first bracket pair, the
result is exactly the parse of that bracketed segment. -/
theorem c1_extraction_decomposition (pre mid post : String)
    (h1 : ∀ c ∈ pre.toList, c ≠ '[' ∧ c ≠ ']') (h2 : ∀ c ∈ mid.toList, c ≠ ']') :
    extractQueriesS (pre ++ "[" ++ mid ++ "]" ++ post) =
      (parseListAtoms ("[" ++ mid ++ "]").toList).getD defaultQueries := by
  have hopenMem : '[' ∉ pre.toList := fun hm => (h1 '[' hm).1 rfl
  have hcloseMemPre : ']' ∉ pre.toList := fun hm => (h1 ']' hm).2 rfl
  have hcloseMemMid : ']' ∉ mid.toList := fun hm => h2 ']' hm rfl
  have ht : (pre ++ "[" ++ mid ++ "]" ++ post).toList =
      pre.toList ++ '[' :: (mid.toList ++ ']' :: post.toList) := by
    show (pre ++ "[" ++ mid ++ "]" ++ post).data =
      pre.data ++ '[' :: (mid.data ++ ']' :: post.data)
    simp [String.data_append]
  have ht2 : ("[" ++ mid ++ "]").toList = '[' :: (mid.toList ++ [']']) := by
    show ("[" ++ mid ++ "]").data = '[' :: (mid.data ++ [']'])
    simp [String.data_append]
  unfold extractQueriesS
  rw [ht, ht2]
  have hopen : pyFind (pre.toList ++ '[' :: (mid.toList ++ ']' :: post.toList)) '[' =
      (pre.toList.length : Int) := by
    unfold pyFind
    rw [pyFindAux_append _ _ _ hopenMem]
    simp [pyFindAux]
  have hnc : ']' ∉ pre.toList ++ '[' :: mid.toList := by
    intro hm
    rcases List.mem_append.mp hm with h | h
    · exact hcloseMemPre h
    · rcases List.mem_cons.mp h with h | h
      · exact absurd h (by decide)
      · exact hcloseMemMid h
  have hclose : pyFind (pre.toList ++ '[' :: (mid.toList ++ ']' :: post.toList)) ']' =
      ((pre.toList.length + 1 + mid.toList.length : Nat) : Int) := by
    have hre : pre.toList ++ '[' :: (mid.toList ++ ']' :: post.toList) =
        (pre.toList ++ '[' :: mid.toList) ++ ']' :: post.toList := by
      simp
    rw [hre]
    unfold pyFind
    rw [pyFindAux_append _ _ _ hnc]
    have hhd : pyFindAux ']' (']' :: post.toList) = some 0 := by simp [pyFindAux]
    rw [hhd]
    show ((0 + (pre.toList ++ '[' :: mid.toList).length : Nat) : Int) = _
    rw [List.length_append, List.length_cons]
    push_cast
    ring
  unfold extractQueriesL
  rw [hopen, hclose, pySlice_decomp]

/-- C1 amended witness: a scan output with a clean bracketed list of two
strings extracts exactly those strings in order. -/
theorem c1_extraction_decomposition_witness :
    extractQueriesS ("Some critique. " ++ "[" ++ "\x22claim A\x22, \x22claim B\x22" ++ "]" ++
        " Done.") =
      [PyAtom.str "claim A", PyAtom.str "claim B"] := by
  rw [c1_extraction_decomposition "Some critique. " "\x22claim A\x22, \x22claim B\x22" " Done."
    (by decide) (by decide)]
  decide

end HPE
